import Mathlib

/-!
# Verification of the prizm Tauri client (src-tauri/src/config.rs, main.rs)

A shallow embedding of the configuration persistence layer and the Tauri
commands `register_client`, `test_connection` and the helper
`extract_host_port`.  Persisted documents are modelled as JSON values
(`Json` below, the counterpart of `serde_json::Value`); the serde-derived
`Deserialize`/`Serialize` of the config structs becomes explicit
`fromJson`/`toJson` functions that follow the field attributes of the
source (`#[serde(default = ...)]` gives the written literal on an absent
field, a bare `#[serde(default)]` gives the field type's `Default`
value).  The filesystem is a state holding the optional config document;
HTTP is an environment mapping a URL to the transport result.
-/

namespace Prizm

/-- JSON values, the model of `serde_json::Value` used for request and
response bodies and the persisted configuration document. -/
inductive Json where
  | jnull : Json
  | jbool : Bool → Json
  | jnum : Int → Json
  | jstr : String → Json
  | jarr : List Json → Json
  | jobj : List (String × Json) → Json

/-- Field lookup in a JSON object (first binding wins). -/
def lookupField : List (String × Json) → String → Option Json
  | [], _ => none
  | (k, v) :: rest, key => if k = key then some v else lookupField rest key

/-- serde deserialization of a `String` field value. -/
def decodeString : Json → Except String String
  | .jstr s => .ok s
  | _ => .error "invalid type: expected string"

/-- serde deserialization of the elements of a `Vec<String>`. -/
def decodeStrings : List Json → Except String (List String)
  | [] => .ok []
  | x :: xs =>
    match decodeString x with
    | .error e => .error e
    | .ok s =>
      match decodeStrings xs with
      | .error e => .error e
      | .ok ss => .ok (s :: ss)

/-- serde deserialization of a `Vec<String>` field value. -/
def decodeStringList : Json → Except String (List String)
  | .jarr xs => decodeStrings xs
  | _ => .error "invalid type: expected array"

/-- A struct field carrying a `#[serde(default ...)]` attribute: an absent
field falls back to `dflt`, a present one is deserialized (a type mismatch
is an error). -/
def decodeFieldD (fs : List (String × Json)) (k : String)
    (dec : Json → Except String α) (dflt : α) : Except String α :=
  match lookupField fs k with
  | some v => dec v
  | none => .ok dflt

/-- A struct field without a default attribute: an absent field is a
deserialization error. -/
def decodeFieldR (fs : List (String × Json)) (k : String)
    (dec : Json → Except String α) : Except String α :=
  match lookupField fs k with
  | some v => dec v
  | none => .error ("missing field " ++ k)

/-- `ServerConfig` from config.rs. -/
structure ServerConfig where
  host : String
  port : String
deriving DecidableEq, Repr

/-- `ServerConfig::default()`. -/
def ServerConfig.default : ServerConfig :=
  { host := "127.0.0.1", port := "4127" }

/-- serde `Deserialize` for `ServerConfig`: `host` defaults to
`"127.0.0.1"`, `port` to `"4127"`. -/
def ServerConfig.fromJson (j : Json) : Except String ServerConfig :=
  match j with
  | .jobj fs =>
    match decodeFieldD fs "host" decodeString "127.0.0.1" with
    | .error e => .error e
    | .ok h =>
      match decodeFieldD fs "port" decodeString "4127" with
      | .error e => .error e
      | .ok p => .ok { host := h, port := p }
  | _ => .error "invalid type: expected object"

/-- serde `Serialize` for `ServerConfig`. -/
def ServerConfig.toJson (c : ServerConfig) : Json :=
  .jobj [("host", .jstr c.host), ("port", .jstr c.port)]

/-- `ClientConfig` from config.rs. -/
structure ClientConfig where
  name : String
  auto_register : String
  requested_scopes : List String
deriving DecidableEq, Repr

/-- `ClientConfig::default()`. -/
def ClientConfig.default : ClientConfig :=
  { name := "Prizm Tauri Client", auto_register := "true",
    requested_scopes := ["default"] }

/-- serde `Deserialize` for `ClientConfig`: `name` defaults to
`"Prizm Tauri Client"`, `auto_register` to `"true"`, and
`requested_scopes` carries a bare `#[serde(default)]`, i.e. it falls back
to `Vec::default()` — the empty list. -/
def ClientConfig.fromJson (j : Json) : Except String ClientConfig :=
  match j with
  | .jobj fs =>
    match decodeFieldD fs "name" decodeString "Prizm Tauri Client" with
    | .error e => .error e
    | .ok n =>
      match decodeFieldD fs "auto_register" decodeString "true" with
      | .error e => .error e
      | .ok a =>
        match decodeFieldD fs "requested_scopes" decodeStringList [] with
        | .error e => .error e
        | .ok rs => .ok { name := n, auto_register := a, requested_scopes := rs }
  | _ => .error "invalid type: expected object"

/-- serde `Serialize` for `ClientConfig`. -/
def ClientConfig.toJson (c : ClientConfig) : Json :=
  .jobj [("name", .jstr c.name), ("auto_register", .jstr c.auto_register),
         ("requested_scopes", .jarr (c.requested_scopes.map Json.jstr))]

/-- `TrayConfig` from config.rs. -/
structure TrayConfig where
  enabled : String
  minimize_to_tray : String
  show_notification : String
deriving DecidableEq, Repr

/-- `TrayConfig::default()`. -/
def TrayConfig.default : TrayConfig :=
  { enabled := "true", minimize_to_tray := "true", show_notification := "true" }

/-- serde `Deserialize` for `TrayConfig`: each flag defaults to `"true"`. -/
def TrayConfig.fromJson (j : Json) : Except String TrayConfig :=
  match j with
  | .jobj fs =>
    match decodeFieldD fs "enabled" decodeString "true" with
    | .error e => .error e
    | .ok en =>
      match decodeFieldD fs "minimize_to_tray" decodeString "true" with
      | .error e => .error e
      | .ok mt =>
        match decodeFieldD fs "show_notification" decodeString "true" with
        | .error e => .error e
        | .ok sn => .ok { enabled := en, minimize_to_tray := mt, show_notification := sn }
  | _ => .error "invalid type: expected object"

/-- serde `Serialize` for `TrayConfig`. -/
def TrayConfig.toJson (c : TrayConfig) : Json :=
  .jobj [("enabled", .jstr c.enabled),
         ("minimize_to_tray", .jstr c.minimize_to_tray),
         ("show_notification", .jstr c.show_notification)]

/-- `PrizmConfig` from config.rs. -/
structure PrizmConfig where
  server : ServerConfig
  client : ClientConfig
  api_key : String
  tray : TrayConfig
deriving DecidableEq, Repr

/-- `PrizmConfig::default()`. -/
def PrizmConfig.default : PrizmConfig :=
  { server := ServerConfig.default, client := ClientConfig.default,
    api_key := "", tray := TrayConfig.default }

/-- serde `Deserialize` for `PrizmConfig`: every top-level field carries a
bare `#[serde(default)]`, so an absent section falls back to that section
type's `Default` impl and an absent `api_key` to the empty string. -/
def PrizmConfig.fromJson (j : Json) : Except String PrizmConfig :=
  match j with
  | .jobj fs =>
    match decodeFieldD fs "server" ServerConfig.fromJson ServerConfig.default with
    | .error e => .error e
    | .ok s =>
      match decodeFieldD fs "client" ClientConfig.fromJson ClientConfig.default with
      | .error e => .error e
      | .ok c =>
        match decodeFieldD fs "api_key" decodeString "" with
        | .error e => .error e
        | .ok k =>
          match decodeFieldD fs "tray" TrayConfig.fromJson TrayConfig.default with
          | .error e => .error e
          | .ok t => .ok { server := s, client := c, api_key := k, tray := t }
  | _ => .error "invalid type: expected object"

/-- serde `Serialize` for `PrizmConfig`. -/
def PrizmConfig.toJson (c : PrizmConfig) : Json :=
  .jobj [("server", c.server.toJson), ("client", c.client.toJson),
         ("api_key", .jstr c.api_key), ("tray", c.tray.toJson)]

/-- The filesystem as seen by `PrizmConfig::load`/`save`: whether the
config directory exists and the config file's document, `none` when the
file does not exist. -/
structure FsState where
  dirExists : Bool
  file : Option Json

/-- `PrizmConfig::load`: ensure the config directory exists
(`create_dir_all`), return the defaults when the file does not exist
(without creating it), otherwise read and parse the document. -/
def PrizmConfig.load (st : FsState) : Except String (PrizmConfig × FsState) :=
  let st1 : FsState := { dirExists := true, file := st.file }
  match st1.file with
  | none => .ok (PrizmConfig.default, st1)
  | some doc =>
    match PrizmConfig.fromJson doc with
    | .ok c => .ok (c, st1)
    | .error e => .error ("Failed to parse config: " ++ e)

/-- `PrizmConfig::save`: ensure the config directory exists and write the
serialized configuration as the config file. -/
def PrizmConfig.save (c : PrizmConfig) (_st : FsState) : FsState :=
  { dirExists := true, file := some c.toJson }

/-- `HealthResponse` from main.rs: `{ status: String }`, no defaults. -/
structure HealthResponse where
  status : String
deriving DecidableEq, Repr

/-- serde `Deserialize` for `HealthResponse` (`status` is required). -/
def HealthResponse.fromJson (j : Json) : Except String HealthResponse :=
  match j with
  | .jobj fs =>
    match decodeFieldR fs "status" decodeString with
    | .error e => .error e
    | .ok s => .ok { status := s }
  | _ => .error "invalid type: expected object"

/-- `RegisterResponse` from main.rs: `{ client_id, api_key }`, both required. -/
structure RegisterResponse where
  client_id : String
  api_key : String
deriving DecidableEq, Repr

/-- serde `Deserialize` for `RegisterResponse`. -/
def RegisterResponse.fromJson (j : Json) : Except String RegisterResponse :=
  match j with
  | .jobj fs =>
    match decodeFieldR fs "client_id" decodeString with
    | .error e => .error e
    | .ok cid =>
      match decodeFieldR fs "api_key" decodeString with
      | .error e => .error e
      | .ok k => .ok { client_id := cid, api_key := k }
  | _ => .error "invalid type: expected object"

/-- `RegisterRequest` from main.rs: `{ name, requested_scopes: Option<Vec<String>> }`. -/
structure RegisterRequest where
  name : String
  requested_scopes : Option (List String)
deriving DecidableEq, Repr

/-- serde `Serialize` for `RegisterRequest` (`None` serializes to `null`). -/
def RegisterRequest.toJson (r : RegisterRequest) : Json :=
  .jobj [("name", .jstr r.name),
         ("requested_scopes",
           match r.requested_scopes with
           | none => .jnull
           | some xs => .jarr (xs.map Json.jstr))]

/-- The HTTP transport as an environment: `getResp url` is the outcome of
`http_get url` (transport error or a body that already parsed as JSON
text), `postResp url body` the outcome of `http_post url body`. -/
structure HttpEnv where
  getResp : String → Except String Json
  postResp : String → Json → Except String Json

/-- Observable side effects of a command, in order of occurrence. -/
inductive Effect where
  | httpGet : String → Effect
  | httpPost : String → Effect
  | fileWrite : Effect
deriving DecidableEq, Repr

/-- Drop the leading characters `p` from `s` when `p` is an initial
segment, the model of one `str::strip_prefix` attempt. -/
def stripPre : List Char → List Char → Option (List Char)
  | [], s => some s
  | _ :: _, [] => none
  | p :: ps, c :: cs => if p = c then stripPre ps cs else none

/-- The scheme-stripping chain of `extract_host_port`: try `http://`,
`https://`, `ws://`, `wss://` against the original URL in that order and
remove the first one that matches, or keep the URL unchanged. -/
def clean_url (url : List Char) : List Char :=
  match stripPre "http://".data url with
  | some r => r
  | none =>
    match stripPre "https://".data url with
    | some r => r
    | none =>
      match stripPre "ws://".data url with
      | some r => r
      | none =>
        match stripPre "wss://".data url with
        | some r => r
        | none => url

/-- Split a string at its LAST colon (`str::rfind(':')`): `some (h, p)`
with `h` the part before the last `:` and `p` the part after, `none`
when there is no colon. -/
def splitLastColon : List Char → Option (List Char × List Char)
  | [] => none
  | c :: cs =>
    match splitLastColon cs with
    | some (h, p) => some (c :: h, p)
    | none => if c = ':' then some ([], cs) else none

/-- `extract_host_port` from main.rs: strip one recognized scheme, then
split at the last colon; the port defaults to `"4127"` when the remainder
has no colon. -/
def extract_host_port (url : String) : String × String :=
  let cu := clean_url url.data
  match splitLastColon cu with
  | some (h, p) => (String.mk h, String.mk p)
  | none => (String.mk cu, "4127")

/-- `register_client` from main.rs, returning the command result, the
filesystem state afterwards and the trace of effects performed. -/
def register_client (env : HttpEnv) (st : FsState) (name : String)
    (server_url : String) (requested_scopes : Option (List String)) :
    Except String String × FsState × List Effect :=
  let health_url := server_url ++ "/health"
  match env.getResp health_url with
  | .error e => (.error e, st, [.httpGet health_url])
  | .ok hbody =>
    match HealthResponse.fromJson hbody with
    | .error e =>
      (.error ("Failed to parse health response: " ++ e), st, [.httpGet health_url])
    | .ok health =>
      if health.status ≠ "ok" then
        (.error "Server health check failed", st, [.httpGet health_url])
      else
        let register_url := server_url ++ "/auth/register"
        let reqBody := RegisterRequest.toJson { name := name, requested_scopes := requested_scopes }
        match env.postResp register_url reqBody with
        | .error e => (.error e, st, [.httpGet health_url, .httpPost register_url])
        | .ok rbody =>
          match RegisterResponse.fromJson rbody with
          | .error e =>
            (.error ("Failed to parse register response: " ++ e), st,
             [.httpGet health_url, .httpPost register_url])
          | .ok reg =>
            match PrizmConfig.load st with
            | .error e =>
              -- load still ran create_dir_all before failing to parse
              (.error e, { dirExists := true, file := st.file },
               [.httpGet health_url, .httpPost register_url])
            | .ok (cfg, st1) =>
              let hp := extract_host_port server_url
              let cfg2 : PrizmConfig :=
                { cfg with
                  server := { host := hp.1, port := hp.2 },
                  client := { cfg.client with name := reg.client_id },
                  api_key := reg.api_key }
              (.ok reg.api_key, PrizmConfig.save cfg2 st1,
               [.httpGet health_url, .httpPost register_url, .fileWrite])

/-- `test_connection` from main.rs: probe `{server_url}/health` and report
whether the parsed status is `"ok"`. -/
def test_connection (env : HttpEnv) (server_url : String) : Except String Bool :=
  match env.getResp (server_url ++ "/health") with
  | .error e => .error e
  | .ok body =>
    match HealthResponse.fromJson body with
    | .error e => .error ("Failed to parse health response: " ++ e)
    | .ok h => .ok (h.status == "ok")

/-- The recognized scheme order of the stripping chain in main.rs. -/
def schemeList : List String := ["http://", "https://", "ws://", "wss://"]

/-- Remove the first matching scheme of the list from the address, keeping
the address unchanged when none matches.  Used by `resolve_spec` below. -/
def stripFirstScheme : List String → List Char → List Char
  | [], s => s
  | p :: ps, s =>
    match stripPre p.data s with
    | some r => r
    | none => stripFirstScheme ps s

/-- Address resolution as the spec words it, for comparison with
`extract_host_port`: strip at most one recognized scheme (only the
first matching one, never cumulatively), then split at the last `:` of
the remainder, the port defaulting to `"4127"` when no colon remains. -/
def resolve_spec (url : String) : String × String :=
  let r := stripFirstScheme schemeList url.data
  match splitLastColon r with
  | some (h, p) => (String.mk h, String.mk p)
  | none => (String.mk r, "4127")

/-- The configuration written by a successful `register_client` on top of
the previously loaded configuration `cfg0`. -/
def registered_config (cfg0 : PrizmConfig) (url cid key : String) : PrizmConfig :=
  { cfg0 with
    server := { host := (extract_host_port url).1, port := (extract_host_port url).2 },
    client := { cfg0.client with name := cid },
    api_key := key }

/-- Sample healthy `/health` body. -/
def healthOkDoc : Json := .jobj [("status", .jstr "ok")]

/-- Sample degraded `/health` body. -/
def healthDegradedDoc : Json := .jobj [("status", .jstr "degraded")]

/-- Sample `/auth/register` body. -/
def registerDoc : Json := .jobj [("client_id", .jstr "c1"), ("api_key", .jstr "k1")]

/-- A server that is healthy and accepts registrations. -/
def envHealthy : HttpEnv :=
  { getResp := fun _ => .ok healthOkDoc, postResp := fun _ _ => .ok registerDoc }

/-- A server whose health endpoint answers `{"status":"degraded"}`. -/
def envDegraded : HttpEnv :=
  { getResp := fun _ => .ok healthDegradedDoc, postResp := fun _ _ => .ok registerDoc }

/-- A server that refuses every connection. -/
def envDown : HttpEnv :=
  { getResp := fun _ => .error "HTTP GET failed: connection refused",
    postResp := fun _ _ => .error "HTTP POST failed: connection refused" }

/-- A filesystem on which the configuration file does not exist. -/
def emptyFs : FsState := { dirExists := false, file := none }

deriving instance DecidableEq for Except

/-! ## Helper lemmas -/

theorem decodeStrings_map_jstr (xs : List String) :
    decodeStrings (xs.map Json.jstr) = .ok xs := by
  induction xs with
  | nil => rfl
  | cons x xs ih => simp [List.map, decodeStrings, decodeString, ih]

theorem fromJson_toJson (c : PrizmConfig) : PrizmConfig.fromJson c.toJson = .ok c := by
  simp [PrizmConfig.toJson, PrizmConfig.fromJson, decodeFieldD, lookupField,
        ServerConfig.toJson, ServerConfig.fromJson, ClientConfig.toJson,
        ClientConfig.fromJson, TrayConfig.toJson, TrayConfig.fromJson,
        decodeStringList, decodeString, decodeStrings_map_jstr]

theorem decodeFieldD_absent {α : Type} (fs : List (String × Json)) (k : String)
    (dec : Json → Except String α) (d : α) (h : lookupField fs k = none) :
    decodeFieldD fs k dec d = .ok d := by
  simp [decodeFieldD, h]

theorem decodeFieldD_present {α : Type} (fs : List (String × Json)) (k : String)
    (dec : Json → Except String α) (d : α) (v : Json) (h : lookupField fs k = some v) :
    decodeFieldD fs k dec d = dec v := by
  simp [decodeFieldD, h]

theorem server_fromJson_inv (fs : List (String × Json)) (c : ServerConfig)
    (h : ServerConfig.fromJson (.jobj fs) = .ok c) :
    decodeFieldD fs "host" decodeString "127.0.0.1" = .ok c.host ∧
    decodeFieldD fs "port" decodeString "4127" = .ok c.port := by
  simp only [ServerConfig.fromJson] at h
  split at h
  · exact Except.noConfusion h
  · split at h
    · exact Except.noConfusion h
    · injection h with h2
      subst h2
      constructor <;> assumption

theorem client_fromJson_inv (fs : List (String × Json)) (c : ClientConfig)
    (h : ClientConfig.fromJson (.jobj fs) = .ok c) :
    decodeFieldD fs "name" decodeString "Prizm Tauri Client" = .ok c.name ∧
    decodeFieldD fs "auto_register" decodeString "true" = .ok c.auto_register ∧
    decodeFieldD fs "requested_scopes" decodeStringList [] = .ok c.requested_scopes := by
  simp only [ClientConfig.fromJson] at h
  split at h
  · exact Except.noConfusion h
  · split at h
    · exact Except.noConfusion h
    · split at h
      · exact Except.noConfusion h
      · injection h with h2
        subst h2
        refine ⟨?_, ?_, ?_⟩ <;> assumption

theorem tray_fromJson_inv (fs : List (String × Json)) (c : TrayConfig)
    (h : TrayConfig.fromJson (.jobj fs) = .ok c) :
    decodeFieldD fs "enabled" decodeString "true" = .ok c.enabled ∧
    decodeFieldD fs "minimize_to_tray" decodeString "true" = .ok c.minimize_to_tray ∧
    decodeFieldD fs "show_notification" decodeString "true" = .ok c.show_notification := by
  simp only [TrayConfig.fromJson] at h
  split at h
  · exact Except.noConfusion h
  · split at h
    · exact Except.noConfusion h
    · split at h
      · exact Except.noConfusion h
      · injection h with h2
        subst h2
        refine ⟨?_, ?_, ?_⟩ <;> assumption

theorem prizm_fromJson_inv (fs : List (String × Json)) (c : PrizmConfig)
    (h : PrizmConfig.fromJson (.jobj fs) = .ok c) :
    decodeFieldD fs "server" ServerConfig.fromJson ServerConfig.default = .ok c.server ∧
    decodeFieldD fs "client" ClientConfig.fromJson ClientConfig.default = .ok c.client ∧
    decodeFieldD fs "api_key" decodeString "" = .ok c.api_key ∧
    decodeFieldD fs "tray" TrayConfig.fromJson TrayConfig.default = .ok c.tray := by
  simp only [PrizmConfig.fromJson] at h
  split at h
  · exact Except.noConfusion h
  · split at h
    · exact Except.noConfusion h
    · split at h
      · exact Except.noConfusion h
      · split at h
        · exact Except.noConfusion h
        · injection h with h2
          subst h2
          refine ⟨?_, ?_, ?_, ?_⟩ <;> assumption

theorem load_file_inv (st : FsState) (doc : Json) (c : PrizmConfig) (st2 : FsState)
    (hf : st.file = some doc) (h : PrizmConfig.load st = .ok (c, st2)) :
    PrizmConfig.fromJson doc = .ok c := by
  simp only [PrizmConfig.load, hf] at h
  split at h
  · rename_i heq
    injection h with h2
    rw [heq]
    rw [(Prod.mk.injEq _ _ _ _).mp h2 |>.1]
  · exact Except.noConfusion h

theorem clean_url_spec (u : List Char) : clean_url u = stripFirstScheme schemeList u := rfl

theorem register_client_success (env : HttpEnv) (st : FsState)
    (name url : String) (scopes : Option (List String)) (hbody rbody : Json)
    (cid key : String) (cfg0 : PrizmConfig) (st1 : FsState)
    (hg : env.getResp (url ++ "/health") = .ok hbody)
    (hh : HealthResponse.fromJson hbody = .ok { status := "ok" })
    (hp : env.postResp (url ++ "/auth/register")
            (RegisterRequest.toJson { name := name, requested_scopes := scopes }) = .ok rbody)
    (hr : RegisterResponse.fromJson rbody = .ok { client_id := cid, api_key := key })
    (hl : PrizmConfig.load st = .ok (cfg0, st1)) :
    register_client env st name url scopes =
      (.ok key,
       { dirExists := true, file := some (PrizmConfig.toJson (registered_config cfg0 url cid key)) },
       [.httpGet (url ++ "/health"), .httpPost (url ++ "/auth/register"), .fileWrite]) := by
  simp [register_client, hg, hh, hp, hr, hl, PrizmConfig.save, registered_config]

/-! ## Claims -/

/-- Claim C1: when the health probe returns a body parsing to status `"ok"`
and the registration POST returns a body parsing to `{client_id, api_key}`,
`register_client` returns that api_key and the persisted configuration
afterwards has `client.name` equal to the returned client_id, `api_key`
equal to the returned api_key, and `server.host`/`server.port` equal to
`extract_host_port server_url`. -/
theorem register_persists_registration (env : HttpEnv) (st : FsState)
    (name url : String) (scopes : Option (List String)) (hbody rbody : Json)
    (cid key : String) (cfg0 : PrizmConfig) (st1 : FsState)
    (hg : env.getResp (url ++ "/health") = .ok hbody)
    (hh : HealthResponse.fromJson hbody = .ok { status := "ok" })
    (hp : env.postResp (url ++ "/auth/register")
            (RegisterRequest.toJson { name := name, requested_scopes := scopes }) = .ok rbody)
    (hr : RegisterResponse.fromJson rbody = .ok { client_id := cid, api_key := key })
    (hl : PrizmConfig.load st = .ok (cfg0, st1)) :
    (register_client env st name url scopes).1 = .ok key ∧
    ∃ cfg1 st2,
      PrizmConfig.load (register_client env st name url scopes).2.1 = .ok (cfg1, st2) ∧
      cfg1.client.name = cid ∧ cfg1.api_key = key ∧
      (cfg1.server.host, cfg1.server.port) = extract_host_port url := by
  have hmain := register_client_success env st name url scopes hbody rbody cid key cfg0 st1
    hg hh hp hr hl
  rw [hmain]
  refine ⟨rfl, registered_config cfg0 url cid key,
    { dirExists := true, file := some (PrizmConfig.toJson (registered_config cfg0 url cid key)) },
    ?_, rfl, rfl, rfl⟩
  simp [PrizmConfig.load, fromJson_toJson]

/-- Witness for C1: a healthy server returning `{"client_id":"c1","api_key":"k1"}`. -/
theorem register_persists_registration_witness :
    (register_client envHealthy emptyFs "n" "http://s:9" none).1 = .ok "k1" ∧
    ∃ cfg1 st2,
      PrizmConfig.load (register_client envHealthy emptyFs "n" "http://s:9" none).2.1
        = .ok (cfg1, st2) ∧
      cfg1.client.name = "c1" ∧ cfg1.api_key = "k1" ∧
      (cfg1.server.host, cfg1.server.port) = extract_host_port "http://s:9" :=
  register_persists_registration envHealthy emptyFs "n" "http://s:9" none
    healthOkDoc registerDoc "c1" "k1" PrizmConfig.default
    { dirExists := true, file := none } rfl rfl rfl rfl rfl

/-- Claim C2: when the health body parses but its status is not `"ok"`,
`register_client` returns the health-check error, issues no POST, and
leaves the persisted configuration unchanged. -/
theorem register_health_fail (env : HttpEnv) (st : FsState)
    (name url : String) (scopes : Option (List String)) (hbody : Json) (s : String)
    (hg : env.getResp (url ++ "/health") = .ok hbody)
    (hh : HealthResponse.fromJson hbody = .ok { status := s })
    (hs : s ≠ "ok") :
    register_client env st name url scopes =
      (.error "Server health check failed", st, [.httpGet (url ++ "/health")]) ∧
    (register_client env st name url scopes).2.1 = st ∧
    ∀ u2, Effect.httpPost u2 ∉ (register_client env st name url scopes).2.2 := by
  have heq : register_client env st name url scopes =
      (.error "Server health check failed", st, [.httpGet (url ++ "/health")]) := by
    simp [register_client, hg, hh, hs]
  refine ⟨heq, by rw [heq], ?_⟩
  rw [heq]
  intro u2
  simp

/-- Witness for C2: a server answering `{"status":"degraded"}`. -/
theorem register_health_fail_witness :
    register_client envDegraded emptyFs "n" "http://s:9" none =
      (.error "Server health check failed", emptyFs, [.httpGet ("http://s:9" ++ "/health")]) ∧
    (register_client envDegraded emptyFs "n" "http://s:9" none).2.1 = emptyFs ∧
    ∀ u2, Effect.httpPost u2 ∉ (register_client envDegraded emptyFs "n" "http://s:9" none).2.2 :=
  register_health_fail envDegraded emptyFs "n" "http://s:9" none
    healthDegradedDoc "degraded" rfl rfl (by decide)

/-- Counterexample to C3: loading the document `{"client":{}}` succeeds but
yields `requested_scopes = []`, not the documented default `["default"]`
(the bare `#[serde(default)]` on the field gives `Vec::default()`). -/
theorem load_partial_client_scopes_empty :
    PrizmConfig.load { dirExists := true, file := some (.jobj [("client", .jobj [])]) } =
      .ok ({ server := ServerConfig.default,
             client := { name := "Prizm Tauri Client", auto_register := "true",
                         requested_scopes := [] },
             api_key := "", tray := TrayConfig.default },
           { dirExists := true, file := some (.jobj [("client", .jobj [])]) }) ∧
    ([] : List String) ≠ ["default"] :=
  ⟨rfl, by decide⟩

/-- Amended C3: a document with absent fields loads with each absent field
at its documented default — except `client.requested_scopes`, which
defaults to the EMPTY list when the `client` object is present without it
(only an entirely absent `client` section yields `["default"]` through
`ClientConfig.default`). -/
theorem load_absent_field_defaults :
    (∀ fs c, ServerConfig.fromJson (.jobj fs) = .ok c →
      (lookupField fs "host" = none → c.host = "127.0.0.1") ∧
      (lookupField fs "port" = none → c.port = "4127")) ∧
    (∀ fs c, ClientConfig.fromJson (.jobj fs) = .ok c →
      (lookupField fs "name" = none → c.name = "Prizm Tauri Client") ∧
      (lookupField fs "auto_register" = none → c.auto_register = "true") ∧
      (lookupField fs "requested_scopes" = none → c.requested_scopes = [])) ∧
    (∀ fs c, TrayConfig.fromJson (.jobj fs) = .ok c →
      (lookupField fs "enabled" = none → c.enabled = "true") ∧
      (lookupField fs "minimize_to_tray" = none → c.minimize_to_tray = "true") ∧
      (lookupField fs "show_notification" = none → c.show_notification = "true")) ∧
    (∀ st fs c st2, st.file = some (.jobj fs) → PrizmConfig.load st = .ok (c, st2) →
      (lookupField fs "server" = none → c.server = ServerConfig.default) ∧
      (lookupField fs "client" = none → c.client = ClientConfig.default) ∧
      (lookupField fs "api_key" = none → c.api_key = "") ∧
      (lookupField fs "tray" = none → c.tray = TrayConfig.default)) := by
  refine ⟨?_, ?_, ?_, ?_⟩
  · intro fs c h
    obtain ⟨h1, h2⟩ := server_fromJson_inv fs c h
    constructor <;> intro hn
    · rw [decodeFieldD_absent _ _ _ _ hn] at h1; injection h1 with h1; exact h1.symm
    · rw [decodeFieldD_absent _ _ _ _ hn] at h2; injection h2 with h2; exact h2.symm
  · intro fs c h
    obtain ⟨h1, h2, h3⟩ := client_fromJson_inv fs c h
    refine ⟨?_, ?_, ?_⟩ <;> intro hn
    · rw [decodeFieldD_absent _ _ _ _ hn] at h1; injection h1 with h1; exact h1.symm
    · rw [decodeFieldD_absent _ _ _ _ hn] at h2; injection h2 with h2; exact h2.symm
    · rw [decodeFieldD_absent _ _ _ _ hn] at h3; injection h3 with h3; exact h3.symm
  · intro fs c h
    obtain ⟨h1, h2, h3⟩ := tray_fromJson_inv fs c h
    refine ⟨?_, ?_, ?_⟩ <;> intro hn
    · rw [decodeFieldD_absent _ _ _ _ hn] at h1; injection h1 with h1; exact h1.symm
    · rw [decodeFieldD_absent _ _ _ _ hn] at h2; injection h2 with h2; exact h2.symm
    · rw [decodeFieldD_absent _ _ _ _ hn] at h3; injection h3 with h3; exact h3.symm
  · intro st fs c st2 hf h
    have hj := load_file_inv st _ c st2 hf h
    obtain ⟨h1, h2, h3, h4⟩ := prizm_fromJson_inv fs c hj
    refine ⟨?_, ?_, ?_, ?_⟩ <;> intro hn
    · rw [decodeFieldD_absent _ _ _ _ hn] at h1; injection h1 with h1; exact h1.symm
    · rw [decodeFieldD_absent _ _ _ _ hn] at h2; injection h2 with h2; exact h2.symm
    · rw [decodeFieldD_absent _ _ _ _ hn] at h3; injection h3 with h3; exact h3.symm
    · rw [decodeFieldD_absent _ _ _ _ hn] at h4; injection h4 with h4; exact h4.symm

/-- Witness for the amended C3: the empty server object decodes with the
default host, and a client object without `requested_scopes` decodes with
the empty list. -/
theorem load_absent_field_defaults_witness :
    ServerConfig.default.host = "127.0.0.1" ∧
    ({ name := "Prizm Tauri Client", auto_register := "true",
       requested_scopes := [] } : ClientConfig).requested_scopes = [] :=
  ⟨(load_absent_field_defaults.1 [] ServerConfig.default rfl).1 rfl,
   (load_absent_field_defaults.2.1 []
     { name := "Prizm Tauri Client", auto_register := "true", requested_scopes := [] }
     rfl).2.2 rfl⟩

/-- Claim C4: the four documented examples of `extract_host_port`. -/
theorem extract_host_port_examples :
    extract_host_port "http://example.com:8080" = ("example.com", "8080") ∧
    extract_host_port "example.com" = ("example.com", "4127") ∧
    extract_host_port "https://10.0.0.5:9000" = ("10.0.0.5", "9000") ∧
    extract_host_port "ws://host" = ("host", "4127") := by
  refine ⟨by decide, by decide, by decide, by decide⟩

/-- Claim C5: `extract_host_port` strips at most one recognized scheme (the
first matching one, never cumulatively) and splits the remainder at its
last colon with port `"4127"` when no colon remains; in particular the
inner `ws://` of `"http://ws://a:1"` is kept. -/
theorem extract_host_port_strips_once :
    (∀ url, extract_host_port url = resolve_spec url) ∧
    extract_host_port "http://ws://a:1" = ("ws://a", "1") := by
  refine ⟨fun url => rfl, by decide⟩

/-- Claim C6: saving any configuration and loading it back succeeds and
returns an equal configuration. -/
theorem save_load_roundtrip (c : PrizmConfig) (st : FsState) :
    PrizmConfig.load (PrizmConfig.save c st) =
      .ok (c, { dirExists := true, file := some c.toJson }) := by
  simp [PrizmConfig.save, PrizmConfig.load, fromJson_toJson]

/-- Counterexample to C7: a document that persists empty strings for
`server.host`/`server.port` loads successfully with those empty strings,
so `load` does not guarantee non-empty host and port. -/
theorem load_persisted_empty_host :
    ¬ (∀ st c st2, PrizmConfig.load st = .ok (c, st2) →
         c.server.host ≠ "" ∧ c.server.port ≠ "") := by
  intro hclaim
  have h := hclaim
    { dirExists := true,
      file := some (.jobj [("server", .jobj [("host", .jstr ""), ("port", .jstr "")])]) }
    { server := { host := "", port := "" }, client := ClientConfig.default,
      api_key := "", tray := TrayConfig.default }
    { dirExists := true,
      file := some (.jobj [("server", .jobj [("host", .jstr ""), ("port", .jstr "")])]) }
    rfl
  exact h.1 rfl

/-- Amended C7: a MISSING persisted `server.host`/`server.port` is replaced
by its non-empty documented default after any successful load (whether the
file, the server section, or the single field is absent); only a document
that explicitly persists an empty string loads an empty value. -/
theorem load_missing_server_fields_default :
    (∀ st c st2, PrizmConfig.load st = .ok (c, st2) → st.file = none →
        c.server.host = "127.0.0.1" ∧ c.server.port = "4127") ∧
    (∀ st fs c st2, PrizmConfig.load st = .ok (c, st2) → st.file = some (.jobj fs) →
        lookupField fs "server" = none →
        c.server.host = "127.0.0.1" ∧ c.server.port = "4127") ∧
    (∀ st fs sfs c st2, PrizmConfig.load st = .ok (c, st2) → st.file = some (.jobj fs) →
        lookupField fs "server" = some (.jobj sfs) →
        (lookupField sfs "host" = none → c.server.host = "127.0.0.1") ∧
        (lookupField sfs "port" = none → c.server.port = "4127")) ∧
    (("127.0.0.1" : String) ≠ "" ∧ ("4127" : String) ≠ "") := by
  refine ⟨?_, ?_, ?_, by decide⟩
  · intro st c st2 h hf
    have hload : PrizmConfig.load st = .ok (PrizmConfig.default, { dirExists := true, file := none }) := by
      simp [PrizmConfig.load, hf]
    rw [hload] at h
    injection h with h2
    injection h2 with hc hst
    rw [← hc]
    exact ⟨rfl, rfl⟩
  · intro st fs c st2 h hf hsv
    have hj := load_file_inv st _ c st2 hf h
    have h1 := (prizm_fromJson_inv fs c hj).1
    rw [decodeFieldD_absent _ _ _ _ hsv] at h1
    injection h1 with h1
    rw [← h1]
    exact ⟨rfl, rfl⟩
  · intro st fs sfs c st2 h hf hsv
    have hj := load_file_inv st _ c st2 hf h
    have h1 := (prizm_fromJson_inv fs c hj).1
    rw [decodeFieldD_present _ _ _ _ _ hsv] at h1
    have hs2 := server_fromJson_inv sfs c.server h1
    constructor <;> intro hn
    · have h5 := hs2.1
      rw [decodeFieldD_absent _ _ _ _ hn] at h5
      injection h5 with h5
      exact h5.symm
    · have h5 := hs2.2
      rw [decodeFieldD_absent _ _ _ _ hn] at h5
      injection h5 with h5
      exact h5.symm

/-- Witness for the amended C7: loading with no file gives the defaults. -/
theorem load_missing_server_fields_default_witness :
    PrizmConfig.default.server.host = "127.0.0.1" ∧
    PrizmConfig.default.server.port = "4127" :=
  load_missing_server_fields_default.1 emptyFs PrizmConfig.default
    { dirExists := true, file := none } rfl rfl

/-- Claim C8: loading a nonexistent configuration file returns the full
defaults and leaves the file nonexistent (only the directory is ensured). -/
theorem load_nonexistent_returns_defaults (st : FsState) (h : st.file = none) :
    PrizmConfig.load st = .ok (PrizmConfig.default, { dirExists := true, file := none }) := by
  simp [PrizmConfig.load, h]

/-- Witness for C8. -/
theorem load_nonexistent_returns_defaults_witness :
    PrizmConfig.load emptyFs =
      .ok (PrizmConfig.default, { dirExists := true, file := none }) :=
  load_nonexistent_returns_defaults emptyFs rfl

/-- Claim C9: `test_connection` reports `ok true` for a parsed status
`"ok"`, `ok false` (not an error) for any other parsed status, and an
error (not `false`) on a transport failure or an unparseable body. -/
theorem test_connection_cases (env : HttpEnv) (url : String) :
    (∀ hbody, env.getResp (url ++ "/health") = .ok hbody →
        HealthResponse.fromJson hbody = .ok { status := "ok" } →
        test_connection env url = .ok true) ∧
    (∀ hbody s, env.getResp (url ++ "/health") = .ok hbody →
        HealthResponse.fromJson hbody = .ok { status := s } → s ≠ "ok" →
        test_connection env url = .ok false) ∧
    (∀ e, env.getResp (url ++ "/health") = .error e →
        test_connection env url = .error e) ∧
    (∀ hbody e, env.getResp (url ++ "/health") = .ok hbody →
        HealthResponse.fromJson hbody = .error e →
        test_connection env url = .error ("Failed to parse health response: " ++ e)) := by
  refine ⟨?_, ?_, ?_, ?_⟩
  · intro hbody hg hh
    simp [test_connection, hg, hh]
  · intro hbody s hg hh hs
    simp [test_connection, hg, hh, hs]
  · intro e hg
    simp [test_connection, hg]
  · intro hbody e hg hh
    simp [test_connection, hg, hh]

/-- Witness for C9: healthy gives `true`, degraded gives `false`, a
refused connection gives the transport error. -/
theorem test_connection_cases_witness :
    test_connection envHealthy "u" = .ok true ∧
    test_connection envDegraded "u" = .ok false ∧
    test_connection envDown "u" = .error "HTTP GET failed: connection refused" :=
  ⟨(test_connection_cases envHealthy "u").1 healthOkDoc rfl rfl,
   (test_connection_cases envDegraded "u").2.1 healthDegradedDoc "degraded" rfl rfl (by decide),
   (test_connection_cases envDown "u").2.2.1 "HTTP GET failed: connection refused" rfl⟩

/-- Claim C10: a successful `register_client` changes only `server.host`,
`server.port`, `client.name` and `api_key`; the tray section,
`client.auto_register` and `client.requested_scopes` keep the values of
the previously persisted (or defaulted) configuration `cfg0`. -/
theorem register_frame (env : HttpEnv) (st : FsState)
    (name url : String) (scopes : Option (List String)) (hbody rbody : Json)
    (cid key : String) (cfg0 : PrizmConfig) (st1 : FsState)
    (hg : env.getResp (url ++ "/health") = .ok hbody)
    (hh : HealthResponse.fromJson hbody = .ok { status := "ok" })
    (hp : env.postResp (url ++ "/auth/register")
            (RegisterRequest.toJson { name := name, requested_scopes := scopes }) = .ok rbody)
    (hr : RegisterResponse.fromJson rbody = .ok { client_id := cid, api_key := key })
    (hl : PrizmConfig.load st = .ok (cfg0, st1)) :
    ∃ cfg1 st2,
      PrizmConfig.load (register_client env st name url scopes).2.1 = .ok (cfg1, st2) ∧
      cfg1.tray = cfg0.tray ∧
      cfg1.client.auto_register = cfg0.client.auto_register ∧
      cfg1.client.requested_scopes = cfg0.client.requested_scopes ∧
      cfg1 = registered_config cfg0 url cid key := by
  have hmain := register_client_success env st name url scopes hbody rbody cid key cfg0 st1
    hg hh hp hr hl
  rw [hmain]
  refine ⟨registered_config cfg0 url cid key,
    { dirExists := true, file := some (PrizmConfig.toJson (registered_config cfg0 url cid key)) },
    ?_, rfl, rfl, rfl, rfl⟩
  simp [PrizmConfig.load, fromJson_toJson]

/-- Witness for C10. -/
theorem register_frame_witness :
    ∃ cfg1 st2,
      PrizmConfig.load (register_client envHealthy emptyFs "n" "http://s:9" none).2.1
        = .ok (cfg1, st2) ∧
      cfg1.tray = PrizmConfig.default.tray ∧
      cfg1.client.auto_register = PrizmConfig.default.client.auto_register ∧
      cfg1.client.requested_scopes = PrizmConfig.default.client.requested_scopes ∧
      cfg1 = registered_config PrizmConfig.default "http://s:9" "c1" "k1" :=
  register_frame envHealthy emptyFs "n" "http://s:9" none healthOkDoc registerDoc
    "c1" "k1" PrizmConfig.default { dirExists := true, file := none } rfl rfl rfl rfl rfl

end Prizm
